import Mathlib

/-!
Verification of the alert-handling agent of `backend/app/api/v1/alert_agent/router.py`.

The development shallowly embeds the data model and the control flow of the
alert endpoint: the contact-phone lookup tool, the single left-to-right walk
over the agent's message history performed by `process_alert_with_agent`
(tool-call correlation, result extraction, truncation of the document-search
output, final-suggestion selection), the fallback single-shot completion, and
the HTTP wrapper `handle_alert`.  The Model Gateway (the hosted LLM) is an
external collaborator and is modelled as a record of response functions; all
code below it is translated directly from the source.
-/

set_option linter.unusedVariables false

namespace AlertAgent

/-- Argument mapping of a tool call: string keys to JSON-compatible values
(string-valued here, which is all the router ever reads). Mirrors a Python
dict: keys are unique, lookup is by key. -/
abbrev Args := List (String × String)

/-- Python `d.get(key, dflt)` on an argument mapping. -/
def dictGetD (args : Args) (key dflt : String) : String :=
  match args.find? (fun p => p.1 == key) with
  | some p => p.2
  | none => dflt

/-- A tool-call request emitted by the model inside an assistant message.
Fields are read with `.get` in the source, so `id` may be absent. -/
structure ToolCallReq where
  id : Option String
  name : String
  args : Args
  deriving DecidableEq, Repr

/-- One message of the agent conversation: `HumanMessage`, `AIMessage`
(content plus the `tool_calls` list) or `ToolMessage` (correlated to a
request by `tool_call_id`). -/
inductive Message where
  | human (content : String)
  | ai (content : String) (tool_calls : List ToolCallReq)
  | tool (tool_call_id : String) (content : String)
  deriving DecidableEq, Repr

/-- `CONTACT_PHONE_MAP`: canonical location name to phone number of the
person in charge, in source order. -/
def CONTACT_PHONE_MAP : List (String × String) :=
  [("仓库", "13800138001"),
   ("办公室", "13800138002"),
   ("换衣间", "13800138003"),
   ("生产车间", "13800138004"),
   ("机房", "13800138005"),
   ("食堂", "13800138006"),
   ("会议室", "13800138007")]

/-- `LOCATION_SYNONYMS`: canonical location to its accepted alias strings,
in source order. -/
def LOCATION_SYNONYMS : List (String × List String) :=
  [("仓库", ["仓库", "仓储", "库房", "货仓"]),
   ("办公室", ["办公室", "写字楼", "办公楼", "办公区"]),
   ("换衣间", ["换衣间", "更衣室", "更衣间"]),
   ("生产车间", ["生产车间", "车间", "生产区", "制造车间"]),
   ("机房", ["机房", "服务器机房", "数据中心", "IDC机房"]),
   ("食堂", ["食堂", "餐厅", "饭堂"]),
   ("会议室", ["会议室", "会议厅", "洽谈室"])]

/-- The comma-joined list of canonical location names used in the
not-found message (`", ".join(CONTACT_PHONE_MAP.keys())`). -/
def availableLocations : String :=
  String.intercalate ", " (CONTACT_PHONE_MAP.map Prod.fst)

/-- `get_contact_phone(location)`: exact match against the canonical map,
then the synonym table, then a descriptive not-found string listing the
canonical locations.  Total: never fails. -/
def get_contact_phone (location : String) : String :=
  match CONTACT_PHONE_MAP.find? (fun p => p.1 == location) with
  | some p => p.2
  | none =>
    match LOCATION_SYNONYMS.find? (fun q => q.2.contains location) with
    | some q =>
      match CONTACT_PHONE_MAP.find? (fun p => p.1 == q.1) with
      | some p => p.2
      | none => ""
    | none =>
      "未找到地点 \x27" ++ location ++ "\x27 的负责人信息。可用地点: " ++ availableLocations

/-- Externally visible record of one executed tool call. -/
structure ToolCallResult where
  tool_name : String
  tool_input : Args
  tool_output : String
  deriving DecidableEq, Repr

/-- The HTTP response model of the alert endpoint. -/
structure AlertResponse where
  original_alert : String
  tool_calls : List ToolCallResult
  maintenance_suggestion : String
  contact_info : String
  emergency_manuals : String
  deriving DecidableEq, Repr

/-- Accumulator of the single walk over the message history inside
`process_alert_with_agent`: the `tool_calls_map` correlation map, the
`tool_results` list and the three scalar result strings. -/
structure ParseState where
  tool_calls_map : List (String × String × Args)
  tool_results : List ToolCallResult
  contact_info : String
  emergency_manuals_result : String
  final_suggestion : String
  deriving DecidableEq, Repr

/-- Initial accumulator: empty map, no results, empty strings. -/
def initState : ParseState := ⟨[], [], "", "", ""⟩

/-- Lookup `tool_calls_map[cid]`: newest entry first, so overwriting a
`tool_call_id` behaves like Python dict assignment. -/
def mapLookup (m : List (String × String × Args)) (cid : String) :
    Option (String × Args) :=
  (m.find? (fun e => e.1 == cid)).map Prod.snd

/-- Recording the requests of one assistant message: each `tool_call` with a
truthy `id` is written into the map (`tool_calls_map[call_id] = ...`);
requests lacking an id, or with an empty-string id, are skipped. -/
def recordCalls (m : List (String × String × Args)) (tcs : List ToolCallReq) :
    List (String × String × Args) :=
  tcs.foldl (fun acc tc =>
    match tc.id with
    | some cid => if cid = "" then acc else (cid, tc.name, tc.args) :: acc
    | none => acc) m

/-- Truncation applied to the externally visible output of the
document-search tool: 200 characters plus an ellipsis when longer. -/
def shortOutput (s : String) : String :=
  if s.length > 200 then s.take 200 ++ "..." else s

/-- One step of the message-history walk of `process_alert_with_agent`:
assistant messages with tool calls feed the correlation map; a tool message
with a truthy id matched in the map appends a `ToolCallResult` (with the
contact-info composition for `get_contact_phone`, and the truncated output
plus full `emergency_manuals` retention for `search_emergency_manuals`);
an assistant message without tool calls and with non-empty string content
sets the final suggestion. -/
def parseStep (st : ParseState) (msg : Message) : ParseState :=
  match msg with
  | Message.human _ => st
  | Message.ai content tcs =>
    if tcs = [] then
      if content = "" then st else { st with final_suggestion := content }
    else
      { st with tool_calls_map := recordCalls st.tool_calls_map tcs }
  | Message.tool call_id content =>
    if call_id = "" then st
    else
      match mapLookup st.tool_calls_map call_id with
      | none => st
      | some (tool_name, tool_args) =>
        if tool_name = "get_contact_phone" then
          { st with
            tool_results := st.tool_results ++ [⟨tool_name, tool_args, content⟩],
            contact_info :=
              dictGetD tool_args "location" "未知地点" ++ "负责人: " ++ content }
        else if tool_name = "search_emergency_manuals" then
          { st with
            tool_results := st.tool_results ++ [⟨tool_name, tool_args, shortOutput content⟩],
            emergency_manuals_result := content }
        else
          { st with tool_results := st.tool_results ++ [⟨tool_name, tool_args, content⟩] }

/-- The full walk over the message history returned by the agent. -/
def extractFromMessages (msgs : List Message) : ParseState :=
  msgs.foldl parseStep initState

/-- The Model Gateway as seen by the router: the primary tool-augmented
agent invocation returning a message history, and the fallback single-shot
completion chain taking the alert text and the two optional context
sections.  Either call may fail. -/
structure Gateway where
  agentInvoke : String → Except String (List Message)
  complete : String → String → String → Except String String

/-- The `contact_section` fragment of the fallback prompt. -/
def contactSection (ci : String) : String :=
  if ci = "" then "" else "\n负责人信息：" ++ ci

/-- The `manuals_section` fragment of the fallback prompt. -/
def manualsSection (em : String) : String :=
  if em = "" then "" else "\n应急手册参考：" ++ em

/-- `process_alert_with_agent`: invoke the agent (an exception leaves the
accumulator at its initial value), walk the history, and if no final
suggestion was produced run the fallback completion; only the fallback's
own failure escapes as an error. -/
def process_alert_with_agent (gw : Gateway) (alert_message : String) :
    Except String AlertResponse :=
  let st :=
    match gw.agentInvoke alert_message with
    | Except.ok msgs => extractFromMessages msgs
    | Except.error _ => initState
  if st.final_suggestion = "" then
    match gw.complete alert_message (contactSection st.contact_info)
        (manualsSection st.emergency_manuals_result) with
    | Except.ok s =>
      Except.ok ⟨alert_message, st.tool_results, s, st.contact_info,
        st.emergency_manuals_result⟩
    | Except.error e => Except.error e
  else
    Except.ok ⟨alert_message, st.tool_results, st.final_suggestion, st.contact_info,
      st.emergency_manuals_result⟩

/-- Outcome of one HTTP request to the endpoint: 200 with a body, or 500
with a detail string. -/
inductive HttpResult where
  | ok (response : AlertResponse)
  | serverError (detail : String)
  deriving DecidableEq, Repr

/-- `handle_alert`: the POST route.  A failure of
`process_alert_with_agent` becomes an HTTP 500 with the formatted detail. -/
def handle_alert (gw : Gateway) (alert_message : String) : HttpResult :=
  match process_alert_with_agent gw alert_message with
  | Except.ok r => HttpResult.ok r
  | Except.error e => HttpResult.serverError ("报警处理失败: " ++ e)

/-- A message carries no tool calls: true for human and tool messages, and
for assistant messages exactly when their `tool_calls` list is empty. -/
def hasNoToolCalls : Message → Bool
  | Message.ai _ tcs => tcs.isEmpty
  | _ => true

/-- Spec-side selection of the final suggestion: the content of the last
assistant message with no tool calls and non-empty content, the accumulator
otherwise. -/
def suggStep (acc : String) (m : Message) : String :=
  match m with
  | Message.ai c [] => if c = "" then acc else c
  | _ => acc

/-- The conversation contains an assistant message that requested tool `nm`
with arguments `ar` under call id `cid`. -/
def RequestedIn (msgs : List Message) (cid nm : String) (ar : Args) : Prop :=
  ∃ content tcs, Message.ai content tcs ∈ msgs ∧ (⟨some cid, nm, ar⟩ : ToolCallReq) ∈ tcs

/-- A gateway whose primary and fallback calls both fail. -/
def gwAllThrow : Gateway :=
  ⟨fun _ => Except.error "gateway down", fun _ _ _ => Except.error "gateway down"⟩

/-- A gateway whose primary call fails but whose fallback completion
succeeds. -/
def gwPrimaryFail : Gateway :=
  ⟨fun _ => Except.error "llm unavailable", fun _ _ _ => Except.ok "fallback suggestion"⟩

/-- A deterministic mocked gateway used for the idempotence witness. -/
def gwDetW : Gateway :=
  ⟨fun _ => Except.ok [Message.ai "done" []], fun _ _ _ => Except.ok "ok"⟩

/-- A gateway returning a history with no tool calls and one final
assistant answer. -/
def gwNoTools : Gateway :=
  ⟨fun _ => Except.ok [Message.human "仓库着火了", Message.ai "suggestion text" []],
   fun _ _ _ => Except.error "unused"⟩

/-- Witness history prefix with one pending document-search request. -/
def preSearchW : List Message :=
  [Message.ai "" [⟨some "s1", "search_emergency_manuals", [("query", "仓库着火")]⟩]]

/-- Witness history prefix with one pending contact-lookup request. -/
def preContactW : List Message :=
  [Message.ai "x" [⟨some "a1", "get_contact_phone", [("location", "仓库")]⟩]]

/-- Witness conversation with one matched contact-lookup call. -/
def msgsMatchedW : List Message :=
  [Message.ai "" [⟨some "a1", "get_contact_phone", [("location", "仓库")]⟩],
   Message.tool "a1" "13800138001"]

/-- Witness history prefix with two pending contact-lookup and two pending
document-search requests. -/
def preMixedW : List Message :=
  [Message.ai "" [⟨some "c1", "get_contact_phone", [("location", "仓库")]⟩,
                  ⟨some "s1", "search_emergency_manuals", [("query", "火灾")]⟩,
                  ⟨some "c2", "get_contact_phone", [("location", "机房")]⟩,
                  ⟨some "s2", "search_emergency_manuals", [("query", "漏水")]⟩]]

end AlertAgent

namespace AlertAgent

/-- Splitting the message walk at a list append. -/
theorem extract_append (l1 l2 : List Message) :
    extractFromMessages (l1 ++ l2) = l2.foldl parseStep (extractFromMessages l1) := by
  simp [extractFromMessages, List.foldl_append]

/-- Characterization of one walk step on a tool message matched to a
`get_contact_phone` request: the record is appended with the raw content as
output and `contact_info` is recomposed from the recorded arguments. -/
theorem parseStep_tool_contact (st : ParseState) (cid c : String) (ar : Args)
    (hcid : cid ≠ "")
    (hm : mapLookup st.tool_calls_map cid = some ("get_contact_phone", ar)) :
    parseStep st (Message.tool cid c) =
      { st with
        tool_results := st.tool_results ++ [⟨"get_contact_phone", ar, c⟩],
        contact_info := dictGetD ar "location" "未知地点" ++ "负责人: " ++ c } := by
  simp only [parseStep]
  rw [if_neg hcid, hm]
  simp

/-- Characterization of one walk step on a tool message matched to a
`search_emergency_manuals` request: the record is appended with the
truncated output while `emergency_manuals_result` keeps the full content. -/
theorem parseStep_tool_search (st : ParseState) (cid c : String) (ar : Args)
    (hcid : cid ≠ "")
    (hm : mapLookup st.tool_calls_map cid = some ("search_emergency_manuals", ar)) :
    parseStep st (Message.tool cid c) =
      { st with
        tool_results := st.tool_results ++ [⟨"search_emergency_manuals", ar, shortOutput c⟩],
        emergency_manuals_result := c } := by
  simp only [parseStep]
  rw [if_neg hcid, hm]
  simp

/-- A tool message never changes the correlation map. -/
theorem parseStep_tool_map_eq (st : ParseState) (cid c : String) :
    (parseStep st (Message.tool cid c)).tool_calls_map = st.tool_calls_map := by
  simp only [parseStep]
  split
  · rfl
  · split
    · rfl
    · split_ifs <;> rfl

/-- Every entry of the correlation map after recording one assistant
message's requests is an old entry or comes from one of those requests,
with a non-empty id. -/
theorem recordCalls_mem (tcs : List ToolCallReq) (m : List (String × String × Args))
    (e : String × String × Args) (he : e ∈ recordCalls m tcs) :
    e ∈ m ∨ ((⟨some e.1, e.2.1, e.2.2⟩ : ToolCallReq) ∈ tcs ∧ e.1 ≠ "") := by
  induction tcs generalizing m with
  | nil => exact Or.inl he
  | cons tc rest ih =>
    have he' : e ∈ recordCalls
        (match tc.id with
         | some cid => if cid = "" then m else (cid, tc.name, tc.args) :: m
         | none => m) rest := he
    rcases ih _ he' with h | h
    · rcases htc : tc.id with _ | cid
      · rw [htc] at h
        exact Or.inl h
      · rw [htc] at h
        have h2 : e ∈ if cid = "" then m else (cid, tc.name, tc.args) :: m := h
        by_cases hc : cid = ""
        · rw [if_pos hc] at h2
          exact Or.inl h2
        · rw [if_neg hc] at h2
          rcases List.mem_cons.mp h2 with h1 | h1
          · subst h1
            refine Or.inr ⟨?_, hc⟩
            have heta : (⟨some cid, tc.name, tc.args⟩ : ToolCallReq) = tc := by
              rw [← htc]
            rw [heta]
            exact List.mem_cons_self _ _
          · exact Or.inl h1
    · exact Or.inr ⟨List.mem_cons_of_mem _ h.1, h.2⟩

/-- Invariant of the walk: every correlation-map entry and every emitted
`ToolCallResult` traces back to a tool-call request of some assistant
message of the conversation, with the recorded name and arguments. -/
theorem extract_sound_aux (msgs all : List Message) (st : ParseState)
    (hsub : ∀ m ∈ msgs, m ∈ all)
    (hmap : ∀ e ∈ st.tool_calls_map, e.1 ≠ "" ∧ RequestedIn all e.1 e.2.1 e.2.2)
    (hres : ∀ r ∈ st.tool_results,
      ∃ cid, cid ≠ "" ∧ RequestedIn all cid r.tool_name r.tool_input) :
    (∀ e ∈ (msgs.foldl parseStep st).tool_calls_map,
      e.1 ≠ "" ∧ RequestedIn all e.1 e.2.1 e.2.2)
    ∧ (∀ r ∈ (msgs.foldl parseStep st).tool_results,
        ∃ cid, cid ≠ "" ∧ RequestedIn all cid r.tool_name r.tool_input) := by
  induction msgs generalizing st with
  | nil => exact ⟨hmap, hres⟩
  | cons m rest ih =>
    have hsub' : ∀ x ∈ rest, x ∈ all := fun x hx => hsub x (by simp [hx])
    have hminall : m ∈ all := hsub m (by simp)
    have hmap' : ∀ e ∈ (parseStep st m).tool_calls_map,
        e.1 ≠ "" ∧ RequestedIn all e.1 e.2.1 e.2.2 := by
      intro e he
      cases m with
      | human s => exact hmap e he
      | tool cid c =>
        rw [parseStep_tool_map_eq] at he
        exact hmap e he
      | ai c tcs =>
        simp only [parseStep] at he
        by_cases htcs : tcs = []
        · rw [if_pos htcs] at he
          split_ifs at he <;> exact hmap e he
        · rw [if_neg htcs] at he
          rcases recordCalls_mem tcs _ e he with h | h
          · exact hmap e h
          · exact ⟨h.2, c, tcs, hminall, h.1⟩
    have hres' : ∀ r ∈ (parseStep st m).tool_results,
        ∃ cid, cid ≠ "" ∧ RequestedIn all cid r.tool_name r.tool_input := by
      intro r hr
      cases m with
      | human s => exact hres r hr
      | ai c tcs =>
        simp only [parseStep] at hr
        split_ifs at hr <;> exact hres r hr
      | tool cid c =>
        simp only [parseStep] at hr
        by_cases hcid : cid = ""
        · rw [if_pos hcid] at hr
          exact hres r hr
        · rw [if_neg hcid] at hr
          rcases hml : mapLookup st.tool_calls_map cid with _ | ⟨nm, ar⟩
          · rw [hml] at hr
            exact hres r hr
          · rw [hml] at hr
            have hr' : r ∈ (if nm = "get_contact_phone" then
                ({ st with
                  tool_results := st.tool_results ++ [⟨nm, ar, c⟩],
                  contact_info := dictGetD ar "location" "未知地点" ++ "负责人: " ++ c } : ParseState)
              else if nm = "search_emergency_manuals" then
                { st with
                  tool_results := st.tool_results ++ [⟨nm, ar, shortOutput c⟩],
                  emergency_manuals_result := c }
              else
                { st with tool_results := st.tool_results ++ [⟨nm, ar, c⟩] }).tool_results := hr
            clear hr
            have hfind := hml
            rw [mapLookup] at hfind
            rcases Option.map_eq_some'.mp hfind with ⟨e0, hfe, hsnd⟩
            obtain ⟨u, vw⟩ := e0
            have hmem := List.mem_of_find?_eq_some hfe
            have hpred := List.find?_some hfe
            have hfst : u = cid := by simpa using hpred
            subst hfst
            simp only at hsnd
            subst hsnd
            have h0 := hmap _ hmem
            split_ifs at hr' <;>
            · rcases List.mem_append.mp hr' with h | h
              · exact hres r h
              · have h1 : r = _ := List.mem_singleton.mp h
                subst h1
                exact ⟨u, h0.1, h0.2⟩
    rw [List.foldl_cons]
    exact ih (parseStep st m) hsub' hmap' hres'

/-- When no message of the history carries tool calls, the walk only
updates the final suggestion, via `suggStep`. -/
theorem foldl_no_toolcalls (msgs : List Message) (st : ParseState)
    (hall : ∀ m ∈ msgs, hasNoToolCalls m = true)
    (hmap : st.tool_calls_map = []) :
    msgs.foldl parseStep st =
      { st with final_suggestion := msgs.foldl suggStep st.final_suggestion } := by
  induction msgs generalizing st with
  | nil => rfl
  | cons m rest ih =>
    have hrest : ∀ x ∈ rest, hasNoToolCalls x = true := fun x hx => hall x (by simp [hx])
    cases m with
    | human s =>
      simpa [parseStep, suggStep] using ih st hrest hmap
    | ai c tcs =>
      have hm : tcs.isEmpty = true := by
        simpa [hasNoToolCalls] using hall (Message.ai c tcs) (by simp)
      have htcs : tcs = [] := by simpa using hm
      subst htcs
      by_cases hc : c = ""
      · simpa [parseStep, suggStep, hc] using ih st hrest hmap
      · have := ih { st with final_suggestion := c } hrest (by simpa using hmap)
        simpa [parseStep, suggStep, hc] using this
    | tool cid s =>
      have hstep : parseStep st (Message.tool cid s) = st := by
        simp only [parseStep]
        by_cases hcid : cid = ""
        · rw [if_pos hcid]
        · rw [if_neg hcid]
          have : mapLookup st.tool_calls_map cid = none := by
            simp [mapLookup, hmap]
          rw [this]
      rw [List.foldl_cons, hstep]
      simpa [suggStep] using ih st hrest hmap

/-- Messages that are not assistant answers with non-empty content leave
the suggestion accumulator unchanged. -/
theorem foldl_sugg_const (l : List Message) (acc : String)
    (h : ∀ m ∈ l, ∀ d, m = Message.ai d [] → d = "") :
    l.foldl suggStep acc = acc := by
  induction l generalizing acc with
  | nil => rfl
  | cons m rest ih =>
    have hrest : ∀ x ∈ rest, ∀ d, x = Message.ai d [] → d = "" :=
      fun x hx => h x (by simp [hx])
    have hstep : suggStep acc m = acc := by
      cases m with
      | ai c tcs =>
        cases tcs with
        | nil =>
          have : c = "" := h _ (by simp) c rfl
          simp [suggStep, this]
        | cons t ts => simp [suggStep]
      | human s => rfl
      | tool a b => rfl
    rw [List.foldl_cons, hstep, ih _ hrest]

end AlertAgent

namespace AlertAgent

/-- C1 (counterexample): with a gateway that throws on every call — the
primary agent invocation and the fallback completion alike — the endpoint
does not return HTTP 200: `handle_alert` yields the HTTP 500 server error
with the formatted detail, refuting the claim at this concrete input. -/
theorem C1_counterexample :
    handle_alert gwAllThrow "仓库着火了" =
      HttpResult.serverError "报警处理失败: gateway down" := rfl

/-- C1 (amended): if the Model Gateway throws on the primary tool-augmented
invocation, then when the fallback single-shot completion succeeds the
endpoint returns HTTP 200 with the fallback's value as
`maintenance_suggestion`, an empty `tool_calls` sequence and empty-string
`contact_info` and `emergency_manuals`; when the fallback also throws, the
endpoint fails with HTTP 500. -/
theorem C1_fallback_recovery :
    (∀ (gw : Gateway) (alert e s : String),
      gw.agentInvoke alert = Except.error e →
      gw.complete alert "" "" = Except.ok s →
      handle_alert gw alert = HttpResult.ok ⟨alert, [], s, "", ""⟩)
    ∧ (∀ (gw : Gateway) (alert e e2 : String),
      gw.agentInvoke alert = Except.error e →
      gw.complete alert "" "" = Except.error e2 →
      handle_alert gw alert = HttpResult.serverError ("报警处理失败: " ++ e2)) := by
  constructor <;>
  · intro gw alert e s h1 h2
    unfold handle_alert process_alert_with_agent
    rw [h1]
    simp [initState, contactSection, manualsSection, h2]

/-- Witness for C1: both branches of the amended claim at concrete
gateways. -/
theorem C1_witness :
    handle_alert gwPrimaryFail "仓库着火了" =
      HttpResult.ok ⟨"仓库着火了", [], "fallback suggestion", "", ""⟩
    ∧ handle_alert gwAllThrow "办公室漏水" =
      HttpResult.serverError ("报警处理失败: " ++ "gateway down") :=
  ⟨C1_fallback_recovery.1 gwPrimaryFail "仓库着火了" "llm unavailable"
      "fallback suggestion" rfl rfl,
   C1_fallback_recovery.2 gwAllThrow "办公室漏水" "gateway down" "gateway down" rfl rfl⟩

/-- C2: when a `search_emergency_manuals` tool result is matched to its
request, the externally visible `ToolCallResult.tool_output` is the result
text truncated (200 characters plus an ellipsis when the raw text exceeds
200 characters, the raw text unchanged otherwise), while the full
untruncated text is retained in the `emergency_manuals` field. -/
theorem C2_search_output_truncated (pre : List Message) (cid c : String) (ar : Args)
    (hcid : cid ≠ "")
    (hm : mapLookup (extractFromMessages pre).tool_calls_map cid =
      some ("search_emergency_manuals", ar)) :
    (extractFromMessages (pre ++ [Message.tool cid c])).tool_results =
      (extractFromMessages pre).tool_results ++
        [⟨"search_emergency_manuals", ar,
          if c.length > 200 then c.take 200 ++ "..." else c⟩]
    ∧ (extractFromMessages (pre ++ [Message.tool cid c])).emergency_manuals_result = c := by
  rw [extract_append]
  simp [parseStep_tool_search _ _ _ _ hcid hm, shortOutput]

/-- Witness for C2 at a concrete matched search call. -/
theorem C2_witness :
    (extractFromMessages (preSearchW ++ [Message.tool "s1" "找到 3 条相关应急处理文档"])).tool_results =
      (extractFromMessages preSearchW).tool_results ++
        [⟨"search_emergency_manuals", [("query", "仓库着火")],
          if ("找到 3 条相关应急处理文档" : String).length > 200 then
            ("找到 3 条相关应急处理文档" : String).take 200 ++ "..."
          else "找到 3 条相关应急处理文档"⟩]
    ∧ (extractFromMessages
        (preSearchW ++ [Message.tool "s1" "找到 3 条相关应急处理文档"])).emergency_manuals_result =
      "找到 3 条相关应急处理文档" :=
  C2_search_output_truncated preSearchW "s1" "找到 3 条相关应急处理文档"
    [("query", "仓库着火")] (by decide) rfl

/-- C3: if the Model Gateway errors on the primary call and the fallback
single-shot completion succeeds with a (non-empty) value, the endpoint
returns HTTP 200 and the response's `maintenance_suggestion` equals the
fallback's return value and is non-empty; the error is not propagated. -/
theorem C3_gateway_error_fallback_ok (gw : Gateway) (alert e s : String)
    (h1 : gw.agentInvoke alert = Except.error e)
    (h2 : gw.complete alert "" "" = Except.ok s) (hs : s ≠ "") :
    ∃ r, handle_alert gw alert = HttpResult.ok r ∧
      r.maintenance_suggestion = s ∧ r.maintenance_suggestion ≠ "" := by
  refine ⟨⟨alert, [], s, "", ""⟩, ?_, rfl, hs⟩
  unfold handle_alert process_alert_with_agent
  rw [h1]
  simp [initState, contactSection, manualsSection, h2]

/-- Witness for C3 at a concrete failing-then-recovering gateway. -/
theorem C3_witness :
    ∃ r, handle_alert gwPrimaryFail "机房漏水" = HttpResult.ok r ∧
      r.maintenance_suggestion = "fallback suggestion" ∧
      r.maintenance_suggestion ≠ "" :=
  C3_gateway_error_fallback_ok gwPrimaryFail "机房漏水" "llm unavailable"
    "fallback suggestion" rfl rfl (by decide)

/-- C4: for a history in which no assistant message carries tool calls and
the last no-tool-call assistant message with non-empty text has content
`c` (later assistant messages all have empty content), the response has an
empty `tool_calls` sequence and `maintenance_suggestion` equal to `c`
verbatim — the last such message wins. -/
theorem C4_no_toolcalls_verbatim (gw : Gateway) (alert : String)
    (l1 l2 : List Message) (c : String)
    (hok : gw.agentInvoke alert = Except.ok (l1 ++ Message.ai c [] :: l2))
    (hc : c ≠ "")
    (hno : ∀ m ∈ l1 ++ Message.ai c [] :: l2, hasNoToolCalls m = true)
    (hlast : ∀ m ∈ l2, ∀ d, m = Message.ai d [] → d = "") :
    handle_alert gw alert = HttpResult.ok ⟨alert, [], c, "", ""⟩ := by
  have hext : extractFromMessages (l1 ++ Message.ai c [] :: l2) =
      { initState with final_suggestion := c } := by
    rw [extractFromMessages, foldl_no_toolcalls _ _ hno rfl]
    rw [List.foldl_append, List.foldl_cons]
    have hstep : suggStep (l1.foldl suggStep initState.final_suggestion)
        (Message.ai c []) = c := by
      simp [suggStep, hc]
    rw [hstep, foldl_sugg_const _ _ hlast]
  unfold handle_alert process_alert_with_agent
  rw [hok]
  simp only [hext]
  simp [initState, hc]

/-- Witness for C4 at a concrete no-tool-call history. -/
theorem C4_witness :
    handle_alert gwNoTools "仓库着火了" =
      HttpResult.ok ⟨"仓库着火了", [], "suggestion text", "", ""⟩ :=
  C4_no_toolcalls_verbatim gwNoTools "仓库着火了" [Message.human "仓库着火了"] []
    "suggestion text" rfl (by decide) (by decide) (by simp)

/-- C5: when the model requests `get_contact_phone` then
`search_emergency_manuals` in one assistant turn and their results appear
correlated by id in that order, `tool_calls` preserves exactly the request
order; and two calls to the same tool name both produce independent
records, with no deduplication. -/
theorem C5_tool_call_order (a id1 id2 final c1 c2 : String) (ar1 ar2 : Args)
    (h1 : id1 ≠ "") (h2 : id2 ≠ "") (hne : id1 ≠ id2) (hf : final ≠ "") :
    (extractFromMessages
      [Message.human a,
       Message.ai "" [⟨some id1, "get_contact_phone", ar1⟩,
                      ⟨some id2, "search_emergency_manuals", ar2⟩],
       Message.tool id1 c1, Message.tool id2 c2,
       Message.ai final []]).tool_results =
      [⟨"get_contact_phone", ar1, c1⟩, ⟨"search_emergency_manuals", ar2, shortOutput c2⟩]
    ∧
    (extractFromMessages
      [Message.human a,
       Message.ai "" [⟨some id1, "get_contact_phone", ar1⟩,
                      ⟨some id2, "get_contact_phone", ar2⟩],
       Message.tool id1 c1, Message.tool id2 c2,
       Message.ai final []]).tool_results =
      [⟨"get_contact_phone", ar1, c1⟩, ⟨"get_contact_phone", ar2, c2⟩] := by
  have hba : (id2 == id1) = false := by
    simp [hne.symm]
  constructor <;>
  · simp [extractFromMessages, parseStep, recordCalls, initState, mapLookup,
      h1, h2, hf, hba, hne]

/-- Witness for C5 at concrete ids and contents. -/
theorem C5_witness :
    (extractFromMessages
      [Message.human "仓库着火了",
       Message.ai "" [⟨some "a", "get_contact_phone", [("location", "仓库")]⟩,
                      ⟨some "b", "search_emergency_manuals", [("query", "火灾")]⟩],
       Message.tool "a" "13800138001", Message.tool "b" "docs",
       Message.ai "done" []]).tool_results =
      [⟨"get_contact_phone", [("location", "仓库")], "13800138001"⟩,
       ⟨"search_emergency_manuals", [("query", "火灾")], shortOutput "docs"⟩]
    ∧
    (extractFromMessages
      [Message.human "仓库着火了",
       Message.ai "" [⟨some "a", "get_contact_phone", [("location", "仓库")]⟩,
                      ⟨some "b", "get_contact_phone", [("location", "机房")]⟩],
       Message.tool "a" "13800138001", Message.tool "b" "13800138005",
       Message.ai "done" []]).tool_results =
      [⟨"get_contact_phone", [("location", "仓库")], "13800138001"⟩,
       ⟨"get_contact_phone", [("location", "机房")], "13800138005"⟩] :=
  C5_tool_call_order "仓库着火了" "a" "b" "done" "13800138001" "docs"
    [("location", "仓库")] [("query", "火灾")]
    (by decide) (by decide) (by decide) (by decide) |>.imp id
    (fun h => by
      have := C5_tool_call_order "仓库着火了" "a" "b" "done" "13800138001" "13800138005"
        [("location", "仓库")] [("location", "机房")]
        (by decide) (by decide) (by decide) (by decide)
      exact this.2)

end AlertAgent

namespace AlertAgent

/-- C6: a tool message whose `tool_call_id` is not matched in the
correlation map built from the preceding assistant messages contributes
nothing and does not fail (the walk state is unchanged); and every emitted
`ToolCallResult` corresponds to a matched request of some assistant message
of the conversation, with `tool_input` equal to that request's recorded
arguments. -/
theorem C6_dangling_dropped_matched_sound :
    (∀ (pre : List Message) (cid c : String),
      mapLookup (extractFromMessages pre).tool_calls_map cid = none →
      extractFromMessages (pre ++ [Message.tool cid c]) = extractFromMessages pre)
    ∧ (∀ (msgs : List Message) (r : ToolCallResult),
        r ∈ (extractFromMessages msgs).tool_results →
        ∃ cid, cid ≠ "" ∧ RequestedIn msgs cid r.tool_name r.tool_input) := by
  constructor
  · intro pre cid c hm
    rw [extract_append]
    simp only [List.foldl_cons, List.foldl_nil]
    simp only [parseStep]
    by_cases hcid : cid = ""
    · rw [if_pos hcid]
    · rw [if_neg hcid, hm]
  · intro msgs r hr
    have h := extract_sound_aux msgs msgs initState (fun m hm => hm)
      (fun e he => absurd he (by simp [initState]))
      (fun r hr => absurd hr (by simp [initState]))
    exact h.2 r hr

/-- Witness for C6: a dangling tool result is dropped, and a matched
result traces to its request. -/
theorem C6_witness :
    extractFromMessages (preContactW ++ [Message.tool "zz" "out"]) =
      extractFromMessages preContactW
    ∧ ∃ cid, cid ≠ "" ∧
        RequestedIn msgsMatchedW cid "get_contact_phone" [("location", "仓库")] :=
  ⟨C6_dangling_dropped_matched_sound.1 preContactW "zz" "out" rfl,
   C6_dangling_dropped_matched_sound.2 msgsMatchedW
     ⟨"get_contact_phone", [("location", "仓库")], "13800138001"⟩ (by decide)⟩

/-- C7: for every canonical location of `CONTACT_PHONE_MAP` and every
synonym listed for it in `LOCATION_SYNONYMS`, `get_contact_phone` returns
the identical phone number on the canonical name and on the synonym. -/
theorem C7_synonym_same_phone :
    ∀ p ∈ CONTACT_PHONE_MAP, ∀ q ∈ LOCATION_SYNONYMS, p.1 = q.1 →
      ∀ s ∈ q.2, get_contact_phone p.1 = p.2 ∧ get_contact_phone s = p.2 := by
  decide

/-- Witness for C7: the canonical name and a synonym of the warehouse both
map to its phone number. -/
theorem C7_witness :
    get_contact_phone "仓库" = "13800138001" ∧ get_contact_phone "库房" = "13800138001" := by
  have h := C7_synonym_same_phone ("仓库", "13800138001") (by decide)
    ("仓库", ["仓库", "仓储", "库房", "货仓"]) (by decide) rfl
  exact ⟨(h "仓库" (by decide)).1, (h "库房" (by decide)).2⟩

/-- C8: for every input that is neither a canonical location nor a listed
synonym, `get_contact_phone` returns (it is total, hence never throws) the
descriptive not-found string, which contains the name of every canonical
location of the contact phone map. -/
theorem C8_unknown_location_descriptive (loc : String)
    (h1 : ∀ p ∈ CONTACT_PHONE_MAP, p.1 ≠ loc)
    (h2 : ∀ q ∈ LOCATION_SYNONYMS, loc ∉ q.2) :
    get_contact_phone loc =
      "未找到地点 \x27" ++ loc ++ "\x27 的负责人信息。可用地点: " ++ availableLocations
    ∧ ∀ p ∈ CONTACT_PHONE_MAP, p.1.data <:+: (get_contact_phone loc).data := by
  have hf1 : CONTACT_PHONE_MAP.find? (fun p => p.1 == loc) = none := by
    apply List.find?_eq_none.mpr
    intro x hx
    simpa using h1 x hx
  have hf2 : LOCATION_SYNONYMS.find? (fun q => q.2.contains loc) = none := by
    apply List.find?_eq_none.mpr
    intro x hx
    simpa using h2 x hx
  have heq : get_contact_phone loc =
      "未找到地点 \x27" ++ loc ++ "\x27 的负责人信息。可用地点: " ++ availableLocations := by
    unfold get_contact_phone
    rw [hf1, hf2]
  refine ⟨heq, ?_⟩
  intro p hp
  rw [heq]
  have hav : p.1.data <:+: availableLocations.data := by
    fin_cases hp <;> decide
  obtain ⟨u, v, huv⟩ := hav
  refine ⟨("未找到地点 \x27" ++ loc ++ "\x27 的负责人信息。可用地点: " : String).data ++ u, v, ?_⟩
  simp [String.data_append, huv]

/-- Witness for C8 at the unknown input of the spec's test scenario. -/
theorem C8_witness :
    get_contact_phone "unknown-place" =
      "未找到地点 \x27" ++ "unknown-place" ++ "\x27 的负责人信息。可用地点: " ++ availableLocations
    ∧ ∀ p ∈ CONTACT_PHONE_MAP, p.1.data <:+: (get_contact_phone "unknown-place").data :=
  C8_unknown_location_descriptive "unknown-place" (by decide) (by decide)

/-- C9: the pipeline from message-history extraction to response
construction is a deterministic function of the alert text and the
gateway's replies: two invocations with pointwise-equal gateways and
identical alert messages produce identical `AlertResponse` outcomes. -/
theorem C9_deterministic_idempotent (gw1 gw2 : Gateway) (a1 a2 : String)
    (hA : ∀ x, gw1.agentInvoke x = gw2.agentInvoke x)
    (hC : ∀ x y z, gw1.complete x y z = gw2.complete x y z)
    (ha : a1 = a2) :
    handle_alert gw1 a1 = handle_alert gw2 a2 := by
  subst ha
  have h1 : gw1.agentInvoke = gw2.agentInvoke := funext hA
  have h2 : gw1.complete = gw2.complete :=
    funext fun x => funext fun y => funext fun z => hC x y z
  cases gw1
  cases gw2
  simp only at h1 h2
  subst h1
  subst h2
  rfl

/-- Witness for C9 at a concrete deterministic mocked gateway. -/
theorem C9_witness :
    handle_alert gwDetW "仓库着火了" = handle_alert gwDetW "仓库着火了" :=
  C9_deterministic_idempotent gwDetW gwDetW "仓库着火了" "仓库着火了"
    (fun _ => rfl) (fun _ _ _ => rfl) rfl

/-- C10: with several matched results per tool, the scalar fields are
last-write-wins — `contact_info` is composed from the last matched
`get_contact_phone` call (location defaulting to 未知地点 when the recorded
arguments lack a location key) and `emergency_manuals_result` keeps only
the last matched `search_emergency_manuals` text — while `tool_results`
records every matched call. -/
theorem C10_last_write_wins (pre : List Message)
    (ca1 ca2 sa1 sa2 d1 d2 e1 e2 : String) (arC1 arC2 arS1 arS2 : Args)
    (hca1 : ca1 ≠ "") (hca2 : ca2 ≠ "") (hsa1 : sa1 ≠ "") (hsa2 : sa2 ≠ "")
    (hm1 : mapLookup (extractFromMessages pre).tool_calls_map ca1 =
      some ("get_contact_phone", arC1))
    (hm2 : mapLookup (extractFromMessages pre).tool_calls_map ca2 =
      some ("get_contact_phone", arC2))
    (hm3 : mapLookup (extractFromMessages pre).tool_calls_map sa1 =
      some ("search_emergency_manuals", arS1))
    (hm4 : mapLookup (extractFromMessages pre).tool_calls_map sa2 =
      some ("search_emergency_manuals", arS2)) :
    (extractFromMessages (pre ++ [Message.tool ca1 d1, Message.tool sa1 e1,
        Message.tool ca2 d2, Message.tool sa2 e2])).contact_info =
      dictGetD arC2 "location" "未知地点" ++ "负责人: " ++ d2
    ∧ (extractFromMessages (pre ++ [Message.tool ca1 d1, Message.tool sa1 e1,
        Message.tool ca2 d2, Message.tool sa2 e2])).emergency_manuals_result = e2
    ∧ (extractFromMessages (pre ++ [Message.tool ca1 d1, Message.tool sa1 e1,
        Message.tool ca2 d2, Message.tool sa2 e2])).tool_results =
      (extractFromMessages pre).tool_results ++
        [⟨"get_contact_phone", arC1, d1⟩, ⟨"search_emergency_manuals", arS1, shortOutput e1⟩,
         ⟨"get_contact_phone", arC2, d2⟩, ⟨"search_emergency_manuals", arS2, shortOutput e2⟩] := by
  rw [extract_append]
  simp only [List.foldl_cons, List.foldl_nil]
  rw [parseStep_tool_contact _ _ _ _ hca1 hm1]
  rw [parseStep_tool_search _ _ _ _ hsa1 (by simpa using hm3)]
  rw [parseStep_tool_contact _ _ _ _ hca2 (by simpa using hm2)]
  rw [parseStep_tool_search _ _ _ _ hsa2 (by simpa using hm4)]
  simp

/-- Witness for C10 at a concrete history with two matched calls per
tool. -/
theorem C10_witness :
    (extractFromMessages (preMixedW ++ [Message.tool "c1" "13800138001",
        Message.tool "s1" "docA", Message.tool "c2" "13800138005",
        Message.tool "s2" "docB"])).contact_info =
      dictGetD [("location", "机房")] "location" "未知地点" ++ "负责人: " ++ "13800138005"
    ∧ (extractFromMessages (preMixedW ++ [Message.tool "c1" "13800138001",
        Message.tool "s1" "docA", Message.tool "c2" "13800138005",
        Message.tool "s2" "docB"])).emergency_manuals_result = "docB"
    ∧ (extractFromMessages (preMixedW ++ [Message.tool "c1" "13800138001",
        Message.tool "s1" "docA", Message.tool "c2" "13800138005",
        Message.tool "s2" "docB"])).tool_results =
      (extractFromMessages preMixedW).tool_results ++
        [⟨"get_contact_phone", [("location", "仓库")], "13800138001"⟩,
         ⟨"search_emergency_manuals", [("query", "火灾")], shortOutput "docA"⟩,
         ⟨"get_contact_phone", [("location", "机房")], "13800138005"⟩,
         ⟨"search_emergency_manuals", [("query", "漏水")], shortOutput "docB"⟩] :=
  C10_last_write_wins preMixedW "c1" "c2" "s1" "s2" "13800138001" "13800138005"
    "docA" "docB" [("location", "仓库")] [("location", "机房")]
    [("query", "火灾")] [("query", "漏水")]
    (by decide) (by decide) (by decide) (by decide) rfl rfl rfl rfl

end AlertAgent
